import Mathlib

/-!
Shallow embedding of the BorderlandsGOTYEnhancedFix DLL (src/src/main.cpp).

The C++ source is a runtime-instrumentation fix: `readYml` loads the
configuration, `resolutionFix` scans for three byte patterns, installs a
mid-function hook at each first match plus a fixed offset, and writes a
static byte patch to seven fixed module-relative addresses, and `fovFix`
installs one hook that rewrites the low float lane of xmm0.

Modelling conventions:
* The helpers in `utils.hpp` (`Utils::patternScan`, `Utils::patch`,
  `Utils::bytesToString`, `Utils::GetDesktopDimensions`) are not part of
  the sources; their contracts are modelled from the spec where needed and
  the pattern scanner is abstracted as an oracle `scan : String → List Nat`
  giving the MatchSet (list of absolute match addresses) for a pattern.
* The observable behaviour of `resolutionFix` / `fovFix` is modelled as a
  trace of events (scans performed, hooks installed, patches written, log
  lines emitted), in program order.
* Hook callbacks are modelled as total functions on a register snapshot
  `Ctx` mirroring `SafetyHookContext`.  C `float` arithmetic inside the
  FOV callback is idealised over `ℝ`.
* C `int` values are `Int`; the implicit conversion to the 64-bit `rax`
  register is `uint64OfInt` (reduction mod 2^64).
-/

/-- C++ `resolution_t`: `int width; int height; float aspectRatio;`
(the derived ratio field is named `aspect` here). -/
structure Resolution where
  width : Int
  height : Int
  aspect : ℝ

/-- C++ `fov_t`: `bool enable; float value;`. -/
structure Fov where
  enable : Bool
  value : ℝ

/-- C++ `fix_t`: `fov_t fov;`. -/
structure FixCfg where
  fov : Fov

/-- C++ `yml_t`: the parsed configuration. -/
structure Yml where
  name : String
  masterEnable : Bool
  resolution : Resolution
  fix : FixCfg

/-- Raw values read from the YAML file before the zero-resolution fixup
(`config["..."].as<T>()` calls at the top of `readYml`). -/
structure RawConfig where
  name : String
  masterEnable : Bool
  width : Int
  height : Int
  fovEnable : Bool
  fovValue : ℝ

/-- Global `nativeAspectRatio = 16.0f / 9.0f` from main.cpp. -/
noncomputable def nativeAspect : ℝ := 16 / 9

/-- `readYml` from main.cpp: copies the raw YAML values into the `yml`
struct; if either dimension is 0 both are replaced by the desktop
dimensions (`Utils::GetDesktopDimensions`, passed here as the
`desktop` argument since it is an external query); afterwards the
aspect ratio is derived as `(float)width / (float)height`. -/
noncomputable def readYml (config : RawConfig) (desktop : Int × Int) : Yml :=
  let w0 := config.width
  let h0 := config.height
  let w := if w0 = 0 ∨ h0 = 0 then desktop.1 else w0
  let h := if w0 = 0 ∨ h0 = 0 then desktop.2 else h0
  { name := config.name
    masterEnable := config.masterEnable
    resolution := { width := w, height := h, aspect := (w : ℝ) / (h : ℝ) }
    fix := { fov := { enable := config.fovEnable, value := config.fovValue } } }

/-- C++ `int` → `uintptr_t` conversion (value reduced mod 2^64), used when
a hook assigns a configured `int` into the 64-bit `rax` register. -/
def uint64OfInt (i : Int) : Nat := (i % (2 : Int) ^ 64).toNat

/-- The four float lanes of an xmm register (`SafetyHookContext::xmm0.f32`),
idealised over `ℝ`. -/
structure Xmm where
  lane0 : ℝ
  lane1 : ℝ
  lane2 : ℝ
  lane3 : ℝ

/-- Register snapshot passed to mid-function hooks (`SafetyHookContext`):
the sixteen general-purpose registers, flags, and the two lowest vector
registers (the hooks below only ever touch `rax` and `xmm0`). -/
structure Ctx where
  rax : Nat
  rbx : Nat
  rcx : Nat
  rdx : Nat
  rsi : Nat
  rdi : Nat
  rbp : Nat
  rsp : Nat
  r8 : Nat
  r9 : Nat
  r10 : Nat
  r11 : Nat
  r12 : Nat
  r13 : Nat
  r14 : Nat
  r15 : Nat
  rflags : Nat
  xmm0 : Xmm
  xmm1 : Xmm

/-- First resolution hook callback (main.cpp line 255):
`ctx.rax = yml.resolution.width;`. -/
def resWidthHook (yml : Yml) (ctx : Ctx) : Ctx :=
  { ctx with rax := uint64OfInt yml.resolution.width }

/-- Second resolution hook callback (main.cpp line 277):
`ctx.rax = yml.resolution.height;`. -/
def resHeightHook (yml : Yml) (ctx : Ctx) : Ctx :=
  { ctx with rax := uint64OfInt yml.resolution.height }

/-- Third resolution hook callback (main.cpp line 299):
`ctx.rax = yml.resolution.height + 0x1;`. -/
def resHeightPlusOneHook (yml : Yml) (ctx : Ctx) : Ctx :=
  { ctx with rax := uint64OfInt (yml.resolution.height + 1) }

/-- FOV hook callback (main.cpp lines 391-397), float arithmetic idealised
over `ℝ`:
`newFov = atanf((tanf(value * pi / 360) / nativeAspectRatio) * aspectRatio) * 360 / pi;`
`newFov *= ctx.xmm0.f32[0] / 120; ctx.xmm0.f32[0] = newFov;`. -/
noncomputable def fovHook (yml : Yml) (ctx : Ctx) : Ctx :=
  let pi := Real.pi
  let newFov := Real.arctan
      ((Real.tan (yml.fix.fov.value * pi / 360) / nativeAspect) * yml.resolution.aspect)
      * 360 / pi
  let scaled := newFov * (ctx.xmm0.lane0 / 120)
  { ctx with xmm0 := { ctx.xmm0 with lane0 := scaled } }

/-- Tags identifying which of the four hook callbacks was installed. -/
inductive HookKind where
  | resWidth
  | resHeight
  | resHeightPlusOne
  | fovAdjust
deriving DecidableEq, Repr

/-- The callback installed for each hook kind. -/
noncomputable def hookCallback : HookKind → Yml → Ctx → Ctx
  | .resWidth => resWidthHook
  | .resHeight => resHeightHook
  | .resHeightPlusOne => resHeightPlusOneHook
  | .fovAdjust => fovHook

/-- Observable actions of the orchestrator, in program order: pattern
scans, hook installations, static patch writes, and log lines. -/
inductive Event where
  | scanEv (pattern : String)
  | logFound (pattern : String) (relAddr : Nat)
  | logNotFound (pattern : String)
  | hookInstall (absAddr : Nat) (kind : HookKind)
  | logHooked (relAddr hookOffset : Nat)
  | patchWrite (absAddr : Nat) (payload : List Nat)
  | logPatched (absAddr : Nat)
  | logFixEnabled (enabled : Bool)
  | logDesktopRes (width height : Int)
  | logAspect (width height : Int)
deriving DecidableEq, Repr

/-- Byte patterns and hook offsets of `resolutionFix` (main.cpp 216-221). -/
def patternFind0 : String := "44 8B ?? 41 8D ?? ?? 48 8B ?? ?? ?? FF 15 ?? ?? ?? ??"

def hookOffset0 : Nat := 0

def patternFind1 : String := "FF 15 ?? ?? ?? ?? 44 8B ?? 45 8B ??"

def hookOffset1 : Nat := 6

def patternFind2 : String := "CC    8B 81 A0 00 00 00    C3    CC"

def hookOffset2 : Nat := 7

/-- Byte pattern and hook offset of `fovFix` (main.cpp 374-375). -/
def fovPatternFind : String :=
  "F3 0F 11 ?? ?? ?? ?? ?? 8B ?? ?? ?? ?? ?? 89 ?? ?? ?? ?? ?? 48 83 ?? ?? 5B C3"

def fovHookOffset : Nat := 0

/-- The seven fixed module-relative static patch addresses
`resAddrPatch` (main.cpp 222-230). -/
def resAddrPatch (baseModule : Nat) : List Nat :=
  [baseModule + 0x25E50A0, baseModule + 0x25E5730, baseModule + 0x25E5C68,
   baseModule + 0x25E61A0, baseModule + 0x25E66D8, baseModule + 0x25E6974,
   baseModule + 0x25E6C10]

/-- Modelled from the spec: `Utils::bytesToString` (utils.hpp, not among the
sources) renders the raw bytes of a 32-bit value; `Utils::patch` writes the
rendered bytes back.  Net effect modelled: the four little-endian bytes of
the value reduced mod 2^32. -/
def int32Bytes (v : Int) : List Nat :=
  let u := (v % (2 : Int) ^ 32).toNat
  [u % 256, u / 256 % 256, u / 65536 % 256, u / 16777216 % 256]

/-- The patch payload built in main.cpp 310-312: the bytes of the
configured width followed by the bytes of the configured height
(`widthString + ' ' + heightString`). -/
def resPayload (yml : Yml) : List Nat :=
  int32Bytes yml.resolution.width ++ int32Bytes yml.resolution.height

/-- One scan-and-hook block of the orchestrator (main.cpp 244-263, 265-285,
287-307, 380-403 all share this shape).  Modelled from the spec where the
scanner is concerned: `Utils::patternScan` fills the vector with the
MatchSet; the caller reads element 0 and null-checks it (`if (hit)`), so an
empty MatchSet is observed as the null first element, modelled by
`List.headD 0`. -/
def scanAndHook (scan : String → List Nat) (baseModule : Nat) (pattern : String)
    (hookOffset : Nat) (kind : HookKind) : List Event :=
  let addr := scan pattern
  let hit := addr.headD 0
  Event.scanEv pattern ::
    (if hit ≠ 0 then
      [Event.logFound pattern (hit - baseModule),
       Event.hookInstall (hit + hookOffset) kind,
       Event.logHooked (hit - baseModule) hookOffset]
     else
      [Event.logNotFound pattern])

/-- The static patch loop (main.cpp 313-316): one write and one log line
per address, in list order, all with the same payload. -/
def patchLoop (payload : List Nat) : List Nat → List Event
  | [] => []
  | a :: rest => Event.patchWrite a payload :: Event.logPatched a :: patchLoop payload rest

/-- `resolutionFix` (main.cpp 215-318) as an event trace: the desktop /
aspect log lines, the enable log line, then — only when `masterEnable`
is set — the three scan-and-hook blocks and the static patch loop. -/
def resolutionFix (yml : Yml) (scan : String → List Nat) (baseModule : Nat) : List Event :=
  let enable := yml.masterEnable
  [Event.logDesktopRes yml.resolution.width yml.resolution.height,
   Event.logAspect yml.resolution.width yml.resolution.height,
   Event.logFixEnabled enable] ++
  (if enable then scanAndHook scan baseModule patternFind0 hookOffset0 HookKind.resWidth else []) ++
  (if enable then scanAndHook scan baseModule patternFind1 hookOffset1 HookKind.resHeight else []) ++
  (if enable then scanAndHook scan baseModule patternFind2 hookOffset2 HookKind.resHeightPlusOne else []) ++
  (if enable then patchLoop (resPayload yml) (resAddrPatch baseModule) else [])

/-- `fovFix` (main.cpp 373-405) as an event trace: the enable log line,
then — only when `masterEnable & fix.fov.enable` — one scan-and-hook
block for the FOV pattern. -/
def fovFix (yml : Yml) (scan : String → List Nat) (baseModule : Nat) : List Event :=
  let enable := yml.masterEnable && yml.fix.fov.enable
  Event.logFixEnabled enable ::
    (if enable then scanAndHook scan baseModule fovPatternFind fovHookOffset HookKind.fovAdjust
     else [])

/-- `Main` (main.cpp 421-428) applies `resolutionFix` then `fovFix`; the
combined trace of the two fix applications. -/
def mainTrace (yml : Yml) (scan : String → List Nat) (baseModule : Nat) : List Event :=
  resolutionFix yml scan baseModule ++ fovFix yml scan baseModule

/-- The four (pattern, hook offset, hook kind) triples the orchestrator
scans for. -/
def fixTable : List (String × Nat × HookKind) :=
  [(patternFind0, hookOffset0, HookKind.resWidth),
   (patternFind1, hookOffset1, HookKind.resHeight),
   (patternFind2, hookOffset2, HookKind.resHeightPlusOne),
   (fovPatternFind, fovHookOffset, HookKind.fovAdjust)]

/-- Extractor for patch-write events, used to isolate the patch sub-trace. -/
def patchData : Event → Option (Nat × List Nat)
  | Event.patchWrite a bs => some (a, bs)
  | _ => none

/-- A scan oracle that finds no pattern anywhere. -/
def scanNone : String → List Nat := fun _ => []

/-- A scan oracle with two matches for the second resolution pattern and
none for any other pattern. -/
def scanTwo : String → List Nat :=
  fun p => if p = patternFind1 then [0x81E24E, 0x90000] else []

/-- A concrete configuration with the master switch off. -/
noncomputable def ymlOff : Yml :=
  { name := "Borderlands GOTY Enhanced"
    masterEnable := false
    resolution := { width := 1920, height := 1080, aspect := 16 / 9 }
    fix := { fov := { enable := true, value := 90 } } }

/-- A concrete configuration with every switch on. -/
noncomputable def ymlOn : Yml :=
  { name := "Borderlands GOTY Enhanced"
    masterEnable := true
    resolution := { width := 1920, height := 1080, aspect := 16 / 9 }
    fix := { fov := { enable := true, value := 90 } } }

/-- A concrete raw configuration requesting the desktop resolution. -/
noncomputable def rawZero : RawConfig :=
  { name := "Borderlands GOTY Enhanced"
    masterEnable := true
    width := 0
    height := 1080
    fovEnable := true
    fovValue := 90 }

/-- All registers of two snapshots agree except possibly `rax`. -/
def EqExceptRax (c c2 : Ctx) : Prop :=
  c2.rbx = c.rbx ∧ c2.rcx = c.rcx ∧ c2.rdx = c.rdx ∧ c2.rsi = c.rsi ∧ c2.rdi = c.rdi ∧
  c2.rbp = c.rbp ∧ c2.rsp = c.rsp ∧ c2.r8 = c.r8 ∧ c2.r9 = c.r9 ∧ c2.r10 = c.r10 ∧
  c2.r11 = c.r11 ∧ c2.r12 = c.r12 ∧ c2.r13 = c.r13 ∧ c2.r14 = c.r14 ∧ c2.r15 = c.r15 ∧
  c2.rflags = c.rflags ∧ c2.xmm0 = c.xmm0 ∧ c2.xmm1 = c.xmm1

/-- All registers of two snapshots agree except possibly the low float
lane of `xmm0`. -/
def EqExceptXmm0Lane0 (c c2 : Ctx) : Prop :=
  c2.rax = c.rax ∧ c2.rbx = c.rbx ∧ c2.rcx = c.rcx ∧ c2.rdx = c.rdx ∧ c2.rsi = c.rsi ∧
  c2.rdi = c.rdi ∧ c2.rbp = c.rbp ∧ c2.rsp = c.rsp ∧ c2.r8 = c.r8 ∧ c2.r9 = c.r9 ∧
  c2.r10 = c.r10 ∧ c2.r11 = c.r11 ∧ c2.r12 = c.r12 ∧ c2.r13 = c.r13 ∧ c2.r14 = c.r14 ∧
  c2.r15 = c.r15 ∧ c2.rflags = c.rflags ∧ c2.xmm0.lane1 = c.xmm0.lane1 ∧
  c2.xmm0.lane2 = c.xmm0.lane2 ∧ c2.xmm0.lane3 = c.xmm0.lane3 ∧ c2.xmm1 = c.xmm1

/-- A concrete snapshot: all integer registers zero, `xmm0` low lane
holding the in-game FOV 120, all other lanes zero. -/
noncomputable def ctxZero : Ctx :=
  { rax := 0, rbx := 0, rcx := 0, rdx := 0, rsi := 0, rdi := 0, rbp := 0, rsp := 0,
    r8 := 0, r9 := 0, r10 := 0, r11 := 0, r12 := 0, r13 := 0, r14 := 0, r15 := 0,
    rflags := 0,
    xmm0 := { lane0 := 120, lane1 := 0, lane2 := 0, lane3 := 0 },
    xmm1 := { lane0 := 0, lane1 := 0, lane2 := 0, lane3 := 0 } }

/-- The FOV update as the claim words it: the aspect ratio applied as a
factor outside the arctan, then scaled by `observed / 120`. -/
noncomputable def fovClaimFormula (configuredFov nativeA aspect observed : ℝ) : ℝ :=
  Real.arctan (Real.tan (configuredFov * Real.pi / 360) / nativeA) * aspect * 360 / Real.pi
    * (observed / 120)

/-- The FOV update as the code computes it (main.cpp 393-395): the aspect
ratio applied inside the arctan, then scaled by `observed / 120`. -/
noncomputable def fovCodeFormula (configuredFov nativeA aspect observed : ℝ) : ℝ :=
  Real.arctan (Real.tan (configuredFov * Real.pi / 360) / nativeA * aspect) * 360 / Real.pi
    * (observed / 120)

lemma hookInstall_mem_scanAndHook_iff {scan : String → List Nat} {base : Nat} {p : String}
    {off : Nat} {k j : HookKind} {a : Nat} :
    Event.hookInstall a j ∈ scanAndHook scan base p off k ↔
      j = k ∧ (scan p).headD 0 ≠ 0 ∧ a = (scan p).headD 0 + off := by
  unfold scanAndHook
  simp only [List.headD_eq_head?]
  by_cases h : (scan p).head?.getD 0 = 0 <;> simp [h] <;> tauto

lemma scanEv_mem_scanAndHook_iff {scan : String → List Nat} {base : Nat} {p q : String}
    {off : Nat} {k : HookKind} :
    Event.scanEv q ∈ scanAndHook scan base p off k ↔ q = p := by
  unfold scanAndHook
  simp only [List.headD_eq_head?]
  by_cases h : (scan p).head?.getD 0 = 0 <;> simp [h]

lemma logNotFound_mem_scanAndHook_iff {scan : String → List Nat} {base : Nat} {p q : String}
    {off : Nat} {k : HookKind} :
    Event.logNotFound q ∈ scanAndHook scan base p off k ↔
      q = p ∧ (scan p).headD 0 = 0 := by
  unfold scanAndHook
  simp only [List.headD_eq_head?]
  by_cases h : (scan p).head?.getD 0 = 0 <;> simp [h]

lemma patchWrite_not_mem_scanAndHook {scan : String → List Nat} {base : Nat} {p : String}
    {off : Nat} {k : HookKind} {a : Nat} {bs : List Nat} :
    Event.patchWrite a bs ∉ scanAndHook scan base p off k := by
  unfold scanAndHook
  simp only [List.headD_eq_head?]
  by_cases h : (scan p).head?.getD 0 = 0 <;> simp [h]

lemma patchWrite_mem_patchLoop_iff {payload bs : List Nat} {a : Nat} :
    ∀ {addrs : List Nat},
      Event.patchWrite a bs ∈ patchLoop payload addrs ↔ a ∈ addrs ∧ bs = payload := by
  intro addrs
  induction addrs with
  | nil => simp [patchLoop]
  | cons x rest ih => simp [patchLoop, ih]; tauto

lemma scanEv_not_mem_patchLoop {payload : List Nat} {p : String} :
    ∀ {addrs : List Nat}, Event.scanEv p ∉ patchLoop payload addrs := by
  intro addrs
  induction addrs with
  | nil => simp [patchLoop]
  | cons x rest ih => simp [patchLoop, ih]

lemma hookInstall_not_mem_patchLoop {payload : List Nat} {a : Nat} {k : HookKind} :
    ∀ {addrs : List Nat}, Event.hookInstall a k ∉ patchLoop payload addrs := by
  intro addrs
  induction addrs with
  | nil => simp [patchLoop]
  | cons x rest ih => simp [patchLoop, ih]

lemma patchData_filterMap_scanAndHook {scan : String → List Nat} {base : Nat} {p : String}
    {off : Nat} {k : HookKind} :
    (scanAndHook scan base p off k).filterMap patchData = [] := by
  unfold scanAndHook
  simp only [List.headD_eq_head?]
  by_cases h : (scan p).head?.getD 0 = 0 <;> simp [h, patchData]

lemma patchData_filterMap_patchLoop {payload : List Nat} :
    ∀ {addrs : List Nat},
      (patchLoop payload addrs).filterMap patchData =
        addrs.map (fun a => (a, payload)) := by
  intro addrs
  induction addrs with
  | nil => simp [patchLoop]
  | cons x rest ih => simp [patchLoop, patchData, ih]

lemma arctan_strictConcaveOn : StrictConcaveOn ℝ (Set.Ici 0) Real.arctan := by
  apply StrictAntiOn.strictConcaveOn_of_deriv (convex_Ici 0)
    Real.continuous_arctan.continuousOn
  rw [Real.deriv_arctan, interior_Ici]
  intro a ha b hb hab
  have ha0 : (0 : ℝ) < a := ha
  have hb0 : (0 : ℝ) < b := hb
  have hsq : 1 + a ^ 2 < 1 + b ^ 2 := by nlinarith
  exact one_div_lt_one_div_of_lt (by positivity) hsq

lemma arctan_nine_sixteenths_lower :
    (9 : ℝ) / 16 * (Real.pi / 4) < Real.arctan (9 / 16) := by
  have h01 : (0 : ℝ) ∈ Set.Ici (0 : ℝ) := Set.left_mem_Ici
  have h11 : (1 : ℝ) ∈ Set.Ici (0 : ℝ) := by norm_num
  have hne : (0 : ℝ) ≠ 1 := by norm_num
  have h2 := arctan_strictConcaveOn.2
  have h := @h2 0 h01 1 h11 hne (7 / 16) (9 / 16) (by norm_num) (by norm_num) (by norm_num)
  simpa [Real.arctan_zero, Real.arctan_one, smul_eq_mul] using h

/-- C3: when `masterEnable` is false, no scan, hook, or patch call occurs
at all — `resolutionFix` and `fovFix` perform no pattern scan, install no
hook, and write no patch bytes. -/
theorem masterDisable_no_actions (yml : Yml) (scan : String → List Nat) (baseModule : Nat)
    (h : yml.masterEnable = false) :
    (∀ p, Event.scanEv p ∉ mainTrace yml scan baseModule) ∧
    (∀ a k, Event.hookInstall a k ∉ mainTrace yml scan baseModule) ∧
    (∀ a bs, Event.patchWrite a bs ∉ mainTrace yml scan baseModule) := by
  unfold mainTrace resolutionFix fovFix
  simp [h]

theorem masterDisable_no_actions_witness :
    Event.scanEv patternFind0 ∉ mainTrace ymlOff scanNone 0 :=
  (masterDisable_no_actions ymlOff scanNone 0 rfl).1 patternFind0

/-- C9: `fovFix` performs its scan if and only if both `masterEnable`
and `fix.fov.enable` are true; when either flag is false it performs no
scan, installs no hook and writes no patch. -/
theorem fovFix_gating (yml : Yml) (scan : String → List Nat) (baseModule : Nat) :
    ((Event.scanEv fovPatternFind ∈ fovFix yml scan baseModule) ↔
      (yml.masterEnable && yml.fix.fov.enable) = true) ∧
    ((yml.masterEnable && yml.fix.fov.enable) = false →
      (∀ p, Event.scanEv p ∉ fovFix yml scan baseModule) ∧
      (∀ a k, Event.hookInstall a k ∉ fovFix yml scan baseModule) ∧
      (∀ a bs, Event.patchWrite a bs ∉ fovFix yml scan baseModule)) := by
  constructor
  · unfold fovFix
    cases h : (yml.masterEnable && yml.fix.fov.enable) <;>
      simp [h, scanEv_mem_scanAndHook_iff]
  · intro h
    unfold fovFix
    simp [h]

theorem fovFix_gating_witness :
    Event.scanEv fovPatternFind ∉ fovFix ymlOff scanNone 0 :=
  ((fovFix_gating ymlOff scanNone 0).2 rfl).1 fovPatternFind

/-- C10: when `masterEnable` is true the static patch loop runs
unconditionally — even when every pattern scan comes back empty, all
seven fixed module-relative addresses are still patched. -/
theorem patches_unconditional (yml : Yml) (scan : String → List Nat) (baseModule : Nat)
    (hme : yml.masterEnable = true) (hscan : ∀ p, scan p = []) :
    ∀ a ∈ resAddrPatch baseModule,
      Event.patchWrite a (resPayload yml) ∈ resolutionFix yml scan baseModule := by
  intro a ha
  unfold resolutionFix
  simp [hme, patchWrite_mem_patchLoop_iff, patchWrite_not_mem_scanAndHook, ha]

theorem patches_unconditional_witness :
    Event.patchWrite 0x25E50A0 (resPayload ymlOn) ∈ resolutionFix ymlOn scanNone 0 :=
  patches_unconditional ymlOn scanNone 0 rfl (fun _ => rfl) 0x25E50A0 (by decide)

/-- C8: when `masterEnable` is true, the patch sub-trace of
`resolutionFix` is exactly one write per address of `resAddrPatch`, in
list order, each carrying the same payload: the bytes of the configured
width followed by the bytes of the configured height.  The write list is
independent of every scan outcome. -/
theorem patch_sequence (yml : Yml) (scan : String → List Nat) (baseModule : Nat)
    (hme : yml.masterEnable = true) :
    (resolutionFix yml scan baseModule).filterMap patchData =
      (resAddrPatch baseModule).map (fun a => (a, resPayload yml)) ∧
    resPayload yml = int32Bytes yml.resolution.width ++ int32Bytes yml.resolution.height := by
  refine ⟨?_, rfl⟩
  unfold resolutionFix
  simp [hme, List.filterMap_append, patchData_filterMap_scanAndHook,
        patchData_filterMap_patchLoop, patchData]

theorem patch_sequence_witness :
    (resolutionFix ymlOn scanNone 0).filterMap patchData =
      (resAddrPatch 0).map (fun a => (a, resPayload ymlOn)) :=
  (patch_sequence ymlOn scanNone 0 rfl).1

/-- C1: if a fix's pattern scan returns an empty MatchSet, that fix is
skipped with a "did not find" log line, no hook of that fix's kind is
installed, and every other fix's scan still takes place (the orchestrator
is total: nothing fatal happens). -/
theorem empty_matchset_skips_fix (yml : Yml) (scan : String → List Nat) (baseModule : Nat)
    (p : String) (off : Nat) (k : HookKind)
    (hfix : (p, off, k) ∈ fixTable)
    (hme : yml.masterEnable = true) (hfov : yml.fix.fov.enable = true)
    (hscan : scan p = []) :
    Event.logNotFound p ∈ mainTrace yml scan baseModule ∧
    (∀ a, Event.hookInstall a k ∉ mainTrace yml scan baseModule) ∧
    (∀ q o j, (q, o, j) ∈ fixTable → Event.scanEv q ∈ mainTrace yml scan baseModule) := by
  simp only [fixTable, List.mem_cons, List.not_mem_nil, or_false, Prod.mk.injEq] at hfix
  unfold mainTrace resolutionFix fovFix
  rcases hfix with ⟨rfl, rfl, rfl⟩ | ⟨rfl, rfl, rfl⟩ | ⟨rfl, rfl, rfl⟩ | ⟨rfl, rfl, rfl⟩ <;>
    refine ⟨?_, ?_, ?_⟩ <;>
    [skip; skip;
     (intro q o j hj;
      simp only [fixTable, List.mem_cons, List.not_mem_nil, or_false, Prod.mk.injEq] at hj;
      rcases hj with ⟨rfl, rfl, rfl⟩ | ⟨rfl, rfl, rfl⟩ | ⟨rfl, rfl, rfl⟩ | ⟨rfl, rfl, rfl⟩);
     skip; skip;
     (intro q o j hj;
      simp only [fixTable, List.mem_cons, List.not_mem_nil, or_false, Prod.mk.injEq] at hj;
      rcases hj with ⟨rfl, rfl, rfl⟩ | ⟨rfl, rfl, rfl⟩ | ⟨rfl, rfl, rfl⟩ | ⟨rfl, rfl, rfl⟩);
     skip; skip;
     (intro q o j hj;
      simp only [fixTable, List.mem_cons, List.not_mem_nil, or_false, Prod.mk.injEq] at hj;
      rcases hj with ⟨rfl, rfl, rfl⟩ | ⟨rfl, rfl, rfl⟩ | ⟨rfl, rfl, rfl⟩ | ⟨rfl, rfl, rfl⟩);
     skip; skip;
     (intro q o j hj;
      simp only [fixTable, List.mem_cons, List.not_mem_nil, or_false, Prod.mk.injEq] at hj;
      rcases hj with ⟨rfl, rfl, rfl⟩ | ⟨rfl, rfl, rfl⟩ | ⟨rfl, rfl, rfl⟩ | ⟨rfl, rfl, rfl⟩)] <;>
    simp_all [hme, hfov, logNotFound_mem_scanAndHook_iff, hookInstall_mem_scanAndHook_iff,
      scanEv_mem_scanAndHook_iff, hookInstall_not_mem_patchLoop, scanEv_not_mem_patchLoop]

theorem empty_matchset_skips_fix_witness :
    Event.logNotFound patternFind0 ∈ mainTrace ymlOn scanNone 0 :=
  (empty_matchset_skips_fix ymlOn scanNone 0 patternFind0 hookOffset0 HookKind.resWidth
    (List.mem_cons_self _ _) rfl rfl rfl).1

/-- C5: for a fix whose scan returns a non-empty MatchSet (with its head
a genuine, nonzero module address), the orchestrator uses the first match
and installs the fix's hook exactly at `first_match + fixed_offset`; the
fixed offsets are 0, 6, 7 and 0 respectively. -/
theorem first_match_hook (yml : Yml) (scan : String → List Nat) (baseModule : Nat)
    (p : String) (off : Nat) (k : HookKind) (a : Nat) (rest : List Nat)
    (hfix : (p, off, k) ∈ fixTable)
    (hme : yml.masterEnable = true) (hfov : yml.fix.fov.enable = true)
    (hscan : scan p = a :: rest) (ha : a ≠ 0) :
    Event.hookInstall (a + off) k ∈ mainTrace yml scan baseModule ∧
    (∀ b, Event.hookInstall b k ∈ mainTrace yml scan baseModule → b = a + off) ∧
    hookOffset0 = 0 ∧ hookOffset1 = 6 ∧ hookOffset2 = 7 ∧ fovHookOffset = 0 := by
  simp only [fixTable, List.mem_cons, List.not_mem_nil, or_false, Prod.mk.injEq] at hfix
  unfold mainTrace resolutionFix fovFix
  rcases hfix with ⟨rfl, rfl, rfl⟩ | ⟨rfl, rfl, rfl⟩ | ⟨rfl, rfl, rfl⟩ | ⟨rfl, rfl, rfl⟩ <;>
    refine ⟨?_, ?_, rfl, rfl, rfl, rfl⟩ <;>
    simp_all [hme, hfov, hookInstall_mem_scanAndHook_iff, hookInstall_not_mem_patchLoop]

theorem first_match_hook_witness :
    Event.hookInstall (0x81E24E + hookOffset1) HookKind.resHeight ∈ mainTrace ymlOn scanTwo 0 :=
  (first_match_hook ymlOn scanTwo 0 patternFind1 hookOffset1 HookKind.resHeight
    0x81E24E [0x90000]
    (List.mem_cons_of_mem _ (List.mem_cons_self _ _)) rfl rfl (by simp [scanTwo]) (by decide)).1

/-- C6: if either configured dimension is 0, both are replaced by the
desktop dimensions, and the aspect ratio is then derived as
`width / height` from the post-replacement values. -/
theorem readYml_zero_resolution (config : RawConfig) (desktop : Int × Int) :
    ((config.width = 0 ∨ config.height = 0) →
      (readYml config desktop).resolution.width = desktop.1 ∧
      (readYml config desktop).resolution.height = desktop.2) ∧
    (readYml config desktop).resolution.aspect =
      ((readYml config desktop).resolution.width : ℝ) /
        ((readYml config desktop).resolution.height : ℝ) := by
  unfold readYml
  by_cases h : config.width = 0 ∨ config.height = 0 <;> simp [h]

theorem readYml_zero_resolution_witness :
    (readYml rawZero (2560, 1080)).resolution.width = 2560 :=
  ((readYml_zero_resolution rawZero (2560, 1080)).1 (Or.inl rfl)).1

/-- C7: each hook callback writes exactly one register — `rax` for the
three resolution hooks, the low float lane of `xmm0` for the FOV hook —
and returns every other register of the snapshot unchanged. -/
theorem hooks_frame (yml : Yml) (ctx : Ctx) :
    EqExceptRax ctx (resWidthHook yml ctx) ∧
    EqExceptRax ctx (resHeightHook yml ctx) ∧
    EqExceptRax ctx (resHeightPlusOneHook yml ctx) ∧
    EqExceptXmm0Lane0 ctx (fovHook yml ctx) := by
  refine ⟨?_, ?_, ?_, ?_⟩ <;>
    simp [EqExceptRax, EqExceptXmm0Lane0, resWidthHook, resHeightHook,
      resHeightPlusOneHook, fovHook]

/-- C4 counterexample: with configured resolution 1920x1080, the third
resolution hook writes 1081 into `rax` — neither the configured width
nor the configured height. -/
theorem res_hook_value_counterexample :
    (resHeightPlusOneHook ymlOn ctxZero).rax ≠ uint64OfInt ymlOn.resolution.width ∧
    (resHeightPlusOneHook ymlOn ctxZero).rax ≠ uint64OfInt ymlOn.resolution.height := by
  constructor <;> decide

/-- C4 amended: the first resolution hook overwrites `rax` with the
configured width, the second with the configured height, and the third
with the configured height plus one — no other value. -/
theorem res_hook_values (yml : Yml) (ctx : Ctx) :
    (resWidthHook yml ctx).rax = uint64OfInt yml.resolution.width ∧
    (resHeightHook yml ctx).rax = uint64OfInt yml.resolution.height ∧
    (resHeightPlusOneHook yml ctx).rax = uint64OfInt (yml.resolution.height + 1) :=
  ⟨rfl, rfl, rfl⟩

/-- C2 counterexample: at configured FOV 90, aspect ratio 16/9 and
observed register value 120 the hook writes exactly 90, while the
claimed formula (aspect ratio outside the arctan) yields
`arctan(9/16) * (16/9) * 360 / π`, which is strictly greater than 90. -/
theorem fov_formula_counterexample :
    (fovHook ymlOn ctxZero).xmm0.lane0 ≠
      fovClaimFormula ymlOn.fix.fov.value nativeAspect ymlOn.resolution.aspect
        ctxZero.xmm0.lane0 := by
  have h90 : (90 : ℝ) * Real.pi / 360 = Real.pi / 4 := by ring
  have harg : Real.tan ((90 : ℝ) * Real.pi / 360) / nativeAspect * (16 / 9 : ℝ) = 1 := by
    rw [h90, Real.tan_pi_div_four]
    unfold nativeAspect
    norm_num
  have hlhs : (fovHook ymlOn ctxZero).xmm0.lane0 = 90 := by
    show Real.arctan
        (Real.tan ((90 : ℝ) * Real.pi / 360) / nativeAspect * (16 / 9 : ℝ)) * 360 / Real.pi
        * ((120 : ℝ) / 120) = 90
    rw [harg, Real.arctan_one]
    have hpi : Real.pi ≠ 0 := Real.pi_ne_zero
    field_simp
    ring
  have hrhs : fovClaimFormula ymlOn.fix.fov.value nativeAspect ymlOn.resolution.aspect
      ctxZero.xmm0.lane0 = Real.arctan (9 / 16) * (16 / 9) * 360 / Real.pi := by
    show Real.arctan
        (Real.tan ((90 : ℝ) * Real.pi / 360) / nativeAspect) * (16 / 9 : ℝ) * 360 / Real.pi
        * ((120 : ℝ) / 120) = _
    rw [h90, Real.tan_pi_div_four]
    unfold nativeAspect
    norm_num
  have hgt : (90 : ℝ) < Real.arctan (9 / 16) * (16 / 9) * 360 / Real.pi := by
    rw [lt_div_iff₀ Real.pi_pos]
    have h := arctan_nine_sixteenths_lower
    linarith
  rw [hlhs, hrhs]
  exact ne_of_lt hgt

/-- C2 amended: at every invocation the FOV hook writes
`atan((tan(configured * π/360) / native_aspect) * aspect_ratio) * 360/π`
— the aspect ratio is a factor inside the atan — scaled by
`observed / 120`. -/
theorem fovHook_formula (yml : Yml) (ctx : Ctx) :
    (fovHook yml ctx).xmm0.lane0 =
      fovCodeFormula yml.fix.fov.value nativeAspect yml.resolution.aspect ctx.xmm0.lane0 := rfl
